import Mathlib

/-
Verification of the startup sequencer in app.py (ACE-Step v1.5 entry point).

The embedding translates the source functions get_gpu_memory_gb and main
into Lean. External collaborators (torch.cuda, AceStepHandler, LLMHandler,
the Gradio front end) are modelled as oracle fields of a Collaborators
record; fallible collaborator calls return Except, mirroring Python
exceptions, and side effects on the front end are recorded as an event
trace.
-/

namespace App

/-- Environment of the hardware probe: the two torch.cuda queries the
try block of get_gpu_memory_gb performs. An error value models a raised
exception; total memory is in bytes as reported by the device. -/
structure ProbeEnv where
  cudaAvailable : Except String Bool
  totalMemoryBytes : Except String Nat

/-- Body of the try block of get_gpu_memory_gb: if cuda is available,
read total_memory of device 0 and convert bytes to gigabytes by dividing
by 1024 cubed, else return 0. Exceptions propagate as Except.error. -/
def probeBody (env : ProbeEnv) : Except String ℚ :=
  match env.cudaAvailable with
  | .error e => .error e
  | .ok true =>
    match env.totalMemoryBytes with
    | .error e => .error e
    | .ok total_memory => .ok ((total_memory : ℚ) / 1024 ^ 3)
  | .ok false => .ok 0

/-- get_gpu_memory_gb from app.py: runs the try block; on any exception
returns 0 and emits a warning line to stderr. The first component is the
value returned to the caller; the second is the optional stderr
diagnostic (the observability sink). -/
def get_gpu_memory_gb (env : ProbeEnv) : ℚ × Option String :=
  match probeBody env with
  | .ok memory_gb => (memory_gb, none)
  | .error e => (0, some ("Warning: Failed to detect GPU memory: " ++ e))

/-- The auto_offload flag computed at app.py line 56:
gpu_memory_gb > 0 and gpu_memory_gb < 16. -/
def autoOffload (gpu_memory_gb : ℚ) : Bool :=
  decide (gpu_memory_gb > 0) && decide (gpu_memory_gb < 16)

/-- The environment-variable overrides read in main (app.py lines 74 to
82): SERVICE_MODE_DIT_MODEL, SERVICE_MODE_LM_MODEL, SERVICE_MODE_BACKEND.
A field is none when the variable is unset. -/
structure Env where
  dit_model : Option String
  lm_model : Option String
  backend : Option String

/-- The service configuration assembled in main (app.py lines 55 to 83):
model identifiers, backend, device and the derived offload flag. -/
structure ServiceConfig where
  config_path : String
  lm_model_path : String
  backend : String
  device : String
  offload_to_cpu : Bool
  deriving DecidableEq

/-- Derivation of the service configuration from the probed memory and
the environment overrides, as in app.py lines 55 to 83: os.environ.get
with a fixed default for each model and backend field, device fixed at
auto, offload derived from the probed memory. -/
def deriveConfig (gpu_memory_gb : ℚ) (env : Env) : ServiceConfig :=
  { config_path := env.dit_model.getD "acestep-v15-turbo-fix-inst-shift-dynamic"
    lm_model_path := env.lm_model.getD "acestep-5Hz-lm-1.7B-v4-fix"
    backend := env.backend.getD "vllm"
    device := "auto"
    offload_to_cpu := autoOffload gpu_memory_gb }

/-- Keyword arguments of dit_handler.initialize_service (app.py lines
97 to 105). -/
structure DitArgs where
  config_path : String
  device : String
  use_flash_attention : Bool
  compile_model : Bool
  offload_to_cpu : Bool
  offload_dit_to_cpu : Bool
  deriving DecidableEq

/-- Keyword arguments of llm_handler.initialize (app.py lines 115 to
122). -/
structure LmArgs where
  checkpoint_dir : String
  lm_model_path : String
  backend : String
  device : String
  offload_to_cpu : Bool
  dtype : String
  deriving DecidableEq

/-- The external collaborators of main: the probe environment, the
environment variables, and the oracle behaviour of the two handler
objects. ditInit and lmInit return Except: an error value models an
exception raised inside the collaborator, an ok value is the
(status message, success flag) pair the call returns. checkpointDir is
the value of dit_handler._get_checkpoint_dir() and ditDtype the value
of dit_handler.dtype. -/
structure Collaborators where
  probeEnv : ProbeEnv
  env : Env
  flashAttention : Bool
  ditInit : DitArgs → Except String (String × Bool)
  checkpointDir : String
  ditDtype : String
  lmInit : LmArgs → Except String (String × Bool)

/-- Probed memory reading inside main (app.py line 55). -/
def gpuMemoryOf (c : Collaborators) : ℚ :=
  (get_gpu_memory_gb c.probeEnv).1

/-- The service configuration main assembles for this run. -/
def configOf (c : Collaborators) : ServiceConfig :=
  deriveConfig (gpuMemoryOf c) c.env

/-- The arguments main passes to dit_handler.initialize_service
(app.py lines 97 to 105). -/
def ditArgsOf (c : Collaborators) : DitArgs :=
  { config_path := (configOf c).config_path
    device := (configOf c).device
    use_flash_attention := c.flashAttention
    compile_model := false
    offload_to_cpu := (configOf c).offload_to_cpu
    offload_dit_to_cpu := false }

/-- The arguments main passes to llm_handler.initialize (app.py lines
115 to 122): the checkpoint directory read from the DiT handler, the LM
model id, backend, device, the shared offload flag and the dtype
inherited from the DiT handler. -/
def lmArgsOf (c : Collaborators) : LmArgs :=
  { checkpoint_dir := c.checkpointDir
    lm_model_path := (configOf c).lm_model_path
    backend := (configOf c).backend
    device := (configOf c).device
    offload_to_cpu := (configOf c).offload_to_cpu
    dtype := c.ditDtype }

/-- The init_params dictionary main builds for the UI (app.py lines 132
to 150), restricted to its plain data fields; the two handler references
are identities of live objects and carry no data of their own. -/
structure ReadinessRecord where
  pre_initialized : Bool
  service_mode : Bool
  checkpoint : Option String
  config_path : String
  device : String
  init_llm : Bool
  lm_model_path : String
  backend : String
  use_flash_attention : Bool
  offload_to_cpu : Bool
  offload_dit_to_cpu : Bool
  init_status : String
  enable_generate : Bool
  language : String
  persistent_storage_path : String
  deriving DecidableEq

/-- Observable actions of main on its collaborators, in call order:
the two initializer invocations with their arguments, the queue
configuration demo.queue(max_size=20), and the network launch
demo.launch(server_name, server_port). -/
inductive Event where
  | ditCall (args : DitArgs)
  | lmCall (args : LmArgs)
  | queue (max_size : Nat)
  | launch (server_name : String) (server_port : Nat)
  deriving DecidableEq

/-- main from app.py lines 48 to 175. Probes the GPU, derives the
configuration, calls the DiT initializer, then the LM initializer with
the checkpoint directory from the DiT handler, appends the LM status to
the transcript (both branches of the lm_success test do the same
append), assembles init_params, configures the queue and launches.
An Except.error from a collaborator call is an uncaught Python
exception: main stops there and the error escapes; the event list
records the calls made up to that point. -/
def main (c : Collaborators) : Except String ReadinessRecord × List Event :=
  match c.ditInit (ditArgsOf c) with
  | .error e => (.error e, [Event.ditCall (ditArgsOf c)])
  | .ok (init_status, enable_generate) =>
    match c.lmInit (lmArgsOf c) with
    | .error e => (.error e, [Event.ditCall (ditArgsOf c), Event.lmCall (lmArgsOf c)])
    | .ok (lm_status, lm_success) =>
      let full_status :=
        if lm_success then init_status ++ "\n" ++ lm_status
        else init_status ++ "\n" ++ lm_status
      (.ok
        { pre_initialized := true
          service_mode := true
          checkpoint := none
          config_path := (configOf c).config_path
          device := (configOf c).device
          init_llm := true
          lm_model_path := (configOf c).lm_model_path
          backend := (configOf c).backend
          use_flash_attention := c.flashAttention
          offload_to_cpu := (configOf c).offload_to_cpu
          offload_dit_to_cpu := false
          init_status := full_status
          enable_generate := enable_generate
          language := "en"
          persistent_storage_path := "/data" },
       [Event.ditCall (ditArgsOf c), Event.lmCall (lmArgsOf c),
        Event.queue 20, Event.launch "0.0.0.0" 7860])

/-- Fixture: no environment variable set. -/
def envNone : Env := ⟨none, none, none⟩

/-- Fixture: SERVICE_MODE_BACKEND set to alt-backend, the other
variables unset. -/
def envAlt : Env := ⟨none, none, some "alt-backend"⟩

/-- Claim C1: for every probed memory reading m, the derived offload
flag is true iff 0 < m < 16; in particular it is false when m = 0 (no
accelerator) and false when m is at least 16. -/
theorem offload_iff_small_gpu (m : ℚ) (env : Env) :
    ((deriveConfig m env).offload_to_cpu = true ↔ (0 < m ∧ m < 16))
    ∧ (m = 0 → (deriveConfig m env).offload_to_cpu = false)
    ∧ (16 ≤ m → (deriveConfig m env).offload_to_cpu = false) := by
  refine ⟨?_, ?_, ?_⟩
  · simp [deriveConfig, autoOffload]
  · rintro rfl
    simp [deriveConfig, autoOffload]
  · intro h16
    simp only [deriveConfig, autoOffload, Bool.and_eq_false_iff,
      decide_eq_false_iff_not, not_lt]
    right
    exact h16

/-- Witness for C1 at the concrete readings 8, 0 and 24. -/
theorem offload_iff_small_gpu_witness :
    ((deriveConfig 8 envNone).offload_to_cpu = true ↔ ((0:ℚ) < 8 ∧ (8:ℚ) < 16))
    ∧ (deriveConfig 0 envNone).offload_to_cpu = false
    ∧ (deriveConfig 24 envNone).offload_to_cpu = false :=
  ⟨(offload_iff_small_gpu 8 envNone).1,
   (offload_iff_small_gpu 0 envNone).2.1 rfl,
   (offload_iff_small_gpu 24 envNone).2.2 (by norm_num)⟩

/-- Claim C6: the hardware probe is total and never propagates an
error: every fault inside the try block yields the reading 0 together
with a stderr diagnostic, and the no-accelerator case yields the
reading 0 with no diagnostic. -/
theorem probe_total_zero_on_fault (env : ProbeEnv) :
    (∀ e, probeBody env = .error e →
      get_gpu_memory_gb env =
        (0, some ("Warning: Failed to detect GPU memory: " ++ e)))
    ∧ (env.cudaAvailable = .ok false → get_gpu_memory_gb env = (0, none)) := by
  constructor
  · intro e h
    simp [get_gpu_memory_gb, h]
  · intro h
    simp [get_gpu_memory_gb, probeBody, h]

/-- Witness for C6: a probe whose availability query raises, and a
probe reporting no accelerator. -/
theorem probe_total_zero_on_fault_witness :
    get_gpu_memory_gb ⟨.error "nvml missing", .ok 0⟩ =
      (0, some ("Warning: Failed to detect GPU memory: " ++ "nvml missing"))
    ∧ get_gpu_memory_gb ⟨.ok false, .ok 0⟩ = (0, none) :=
  ⟨(probe_total_zero_on_fault ⟨.error "nvml missing", .ok 0⟩).1 "nvml missing" rfl,
   (probe_total_zero_on_fault ⟨.ok false, .ok 0⟩).2 rfl⟩

/-- Claim C7: for each of the three recognized overrides (DiT model id,
LM model id, backend), a present value is used in the resulting
configuration and an absent one falls back to the fixed built-in
default. -/
theorem overrides_win_over_defaults (m : ℚ) (env : Env) :
    (∀ s, env.dit_model = some s → (deriveConfig m env).config_path = s)
    ∧ (env.dit_model = none →
        (deriveConfig m env).config_path = "acestep-v15-turbo-fix-inst-shift-dynamic")
    ∧ (∀ s, env.lm_model = some s → (deriveConfig m env).lm_model_path = s)
    ∧ (env.lm_model = none →
        (deriveConfig m env).lm_model_path = "acestep-5Hz-lm-1.7B-v4-fix")
    ∧ (∀ s, env.backend = some s → (deriveConfig m env).backend = s)
    ∧ (env.backend = none → (deriveConfig m env).backend = "vllm") := by
  refine ⟨?_, ?_, ?_, ?_, ?_, ?_⟩
  · intro s h
    simp [deriveConfig, h]
  · intro h
    simp [deriveConfig, h]
  · intro s h
    simp [deriveConfig, h]
  · intro h
    simp [deriveConfig, h]
  · intro s h
    simp [deriveConfig, h]
  · intro h
    simp [deriveConfig, h]

/-- Witness for C7: the backend override alt-backend wins; with no
overrides the three built-in defaults are used. -/
theorem overrides_win_over_defaults_witness :
    (deriveConfig 8 envAlt).backend = "alt-backend"
    ∧ (deriveConfig 8 envNone).backend = "vllm"
    ∧ (deriveConfig 8 envNone).config_path = "acestep-v15-turbo-fix-inst-shift-dynamic"
    ∧ (deriveConfig 8 envNone).lm_model_path = "acestep-5Hz-lm-1.7B-v4-fix" :=
  ⟨(overrides_win_over_defaults 8 envAlt).2.2.2.2.1 "alt-backend" rfl,
   (overrides_win_over_defaults 8 envNone).2.2.2.2.2 rfl,
   (overrides_win_over_defaults 8 envNone).2.1 rfl,
   (overrides_win_over_defaults 8 envNone).2.2.2.1 rfl⟩

/-- Claim C8: configuration derivation is pure and deterministic: two
evaluations with identical inputs produce identical service
configurations. -/
theorem derive_deterministic (m m' : ℚ) (env env' : Env)
    (hm : m = m') (he : env = env') :
    deriveConfig m env = deriveConfig m' env' := by
  rw [hm, he]

/-- Witness for C8 at a concrete profile and override set. -/
theorem derive_deterministic_witness :
    (8:ℚ) = 8 ∧ envAlt = envAlt
    ∧ deriveConfig 8 envAlt = deriveConfig 8 envAlt :=
  ⟨rfl, rfl, derive_deterministic 8 8 envAlt envAlt rfl rfl⟩

/-- Helper: the value of main when both initializer calls return an
outcome (any pair of success flags). The transcript is the DiT status,
a newline, then the LM status; enable_generate is the DiT flag; the
front end receives queue capacity 20 and is then launched. -/
theorem main_ok (c : Collaborators) (s t : String) (g b : Bool)
    (h1 : c.ditInit (ditArgsOf c) = .ok (s, g))
    (h2 : c.lmInit (lmArgsOf c) = .ok (t, b)) :
    main c =
      (.ok
        { pre_initialized := true
          service_mode := true
          checkpoint := none
          config_path := (configOf c).config_path
          device := (configOf c).device
          init_llm := true
          lm_model_path := (configOf c).lm_model_path
          backend := (configOf c).backend
          use_flash_attention := c.flashAttention
          offload_to_cpu := (configOf c).offload_to_cpu
          offload_dit_to_cpu := false
          init_status := s ++ "\n" ++ t
          enable_generate := g
          language := "en"
          persistent_storage_path := "/data" },
       [Event.ditCall (ditArgsOf c), Event.lmCall (lmArgsOf c),
        Event.queue 20, Event.launch "0.0.0.0" 7860]) := by
  unfold main
  rw [h1, h2]
  cases b <;> rfl

/-- Claim C2: whatever outcome the DiT initializer returns, including
enable_generate = false, main still calls the LM initializer, and the
checkpoint_dir argument of that call is the directory read from the DiT
handler; Stage 2 is not guarded on the Stage 1 flag. -/
theorem secondary_always_invoked (c : Collaborators) (s : String) (g : Bool)
    (h : c.ditInit (ditArgsOf c) = .ok (s, g)) :
    Event.lmCall (lmArgsOf c) ∈ (main c).2
    ∧ (lmArgsOf c).checkpoint_dir = c.checkpointDir := by
  refine ⟨?_, rfl⟩
  unfold main
  rw [h]
  rcases hl : c.lmInit (lmArgsOf c) with e | ⟨t, b⟩
  · simp
  · cases b <;> simp

/-- Fixture for the C2 witness: the DiT initializer reports generation
not enabled, the LM initializer succeeds. -/
def cDitFail : Collaborators :=
  { probeEnv := ⟨.ok true, .ok 8589934592⟩
    env := envNone
    flashAttention := false
    ditInit := fun _ => .ok ("Failed to load DiT weights", false)
    checkpointDir := "/data/checkpoints"
    ditDtype := "bfloat16"
    lmInit := fun _ => .ok ("LM ready", true) }

/-- Witness for C2: with the DiT stage reporting failure, the LM call
still appears in the trace with the checkpoint directory from the DiT
handler. -/
theorem secondary_always_invoked_witness :
    Event.lmCall (lmArgsOf cDitFail) ∈ (main cDitFail).2
    ∧ (lmArgsOf cDitFail).checkpoint_dir = cDitFail.checkpointDir :=
  secondary_always_invoked cDitFail "Failed to load DiT weights" false rfl

/-- Fixture for the C3 counterexample: the DiT initializer raises an
exception instead of returning an outcome. -/
def cDitRaises : Collaborators :=
  { probeEnv := ⟨.ok true, .ok 8589934592⟩
    env := envNone
    flashAttention := false
    ditInit := fun _ => .error "CUDA error: device-side assert triggered"
    checkpointDir := "/data/checkpoints"
    ditDtype := "bfloat16"
    lmInit := fun _ => .ok ("LM ready", true) }

/-- Counterexample to C3: main wraps no handler around the initializer
calls, so an exception raised inside the DiT initializer escapes the
coordinator and no readiness record is produced. -/
theorem fault_escapes_coordinator :
    (main cDitRaises).1 = Except.error "CUDA error: device-side assert triggered" := by
  rfl

/-- Fixture for the C3 amended witness: the probe faults, both
initializers return outcomes. -/
def cProbeFault : Collaborators :=
  { probeEnv := ⟨.error "nvml not initialized", .ok 0⟩
    env := envNone
    flashAttention := true
    ditInit := fun _ => .ok ("DiT weights loaded", true)
    checkpointDir := "/data/checkpoints"
    ditDtype := "bfloat16"
    lmInit := fun _ => .ok ("LM ready", true) }

/-- Claim C3 as amended: probe faults are caught and degrade to a zero
reading, and whenever the two initializers return outcomes, of any
success value and under any probe environment including faulty ones,
startup runs to completion and produces a readiness record; only an
exception raised by an initializer escapes. -/
theorem outcome_faults_nonfatal (c : Collaborators) (s t : String) (g b : Bool)
    (h1 : c.ditInit (ditArgsOf c) = .ok (s, g))
    (h2 : c.lmInit (lmArgsOf c) = .ok (t, b)) :
    ∃ r : ReadinessRecord, (main c).1 = Except.ok r :=
  ⟨_, by rw [main_ok c s t g b h1 h2]⟩

/-- Witness for amended C3: with a faulting probe and returning
initializers, startup completes with a readiness record. -/
theorem outcome_faults_nonfatal_witness :
    ∃ r : ReadinessRecord, (main cProbeFault).1 = Except.ok r :=
  outcome_faults_nonfatal cProbeFault "DiT weights loaded" "LM ready" true true rfl rfl

/-- Claim C4: the enable_generate field of the readiness record equals
exactly the DiT outcome flag, for every combination of DiT and LM
outcomes; the LM success flag never changes it. -/
theorem generation_flag_from_primary (c : Collaborators) (s t : String) (g b : Bool)
    (h1 : c.ditInit (ditArgsOf c) = .ok (s, g))
    (h2 : c.lmInit (lmArgsOf c) = .ok (t, b)) :
    (main c).1.map ReadinessRecord.enable_generate = Except.ok g := by
  rw [main_ok c s t g b h1 h2]
  rfl

/-- Fixture for the C4 witness: DiT succeeds, LM fails. -/
def cLmFail : Collaborators :=
  { probeEnv := ⟨.ok true, .ok 25769803776⟩
    env := envNone
    flashAttention := true
    ditInit := fun _ => .ok ("DiT weights loaded", true)
    checkpointDir := "/data/checkpoints"
    ditDtype := "bfloat16"
    lmInit := fun _ => .ok ("vllm backend unavailable", false) }

/-- Witness for C4: the LM stage fails yet enable_generate stays true. -/
theorem generation_flag_from_primary_witness :
    (main cLmFail).1.map ReadinessRecord.enable_generate = Except.ok true :=
  generation_flag_from_primary cLmFail "DiT weights loaded" "vllm backend unavailable"
    true false rfl rfl

/-- Claim C5: for every combination of success flags, the transcript is
the DiT status message followed by the LM status message, joined by a
single newline separator, with neither message omitted, duplicated or
truncated. -/
theorem transcript_is_ordered_concat (c : Collaborators) (s t : String) (g b : Bool)
    (h1 : c.ditInit (ditArgsOf c) = .ok (s, g))
    (h2 : c.lmInit (lmArgsOf c) = .ok (t, b)) :
    (main c).1.map ReadinessRecord.init_status = Except.ok (s ++ "\n" ++ t) := by
  rw [main_ok c s t g b h1 h2]
  rfl

/-- Fixture for the C5 witness: both stages fail. -/
def cBothFail : Collaborators :=
  { probeEnv := ⟨.ok false, .ok 0⟩
    env := envNone
    flashAttention := false
    ditInit := fun _ => .ok ("Failed to load DiT weights", false)
    checkpointDir := "/data/checkpoints"
    ditDtype := "float32"
    lmInit := fun _ => .ok ("vllm backend unavailable", false) }

/-- Witness for C5: with both stages failing, the transcript still
carries both messages in order. -/
theorem transcript_is_ordered_concat_witness :
    (main cBothFail).1.map ReadinessRecord.init_status =
      Except.ok ("Failed to load DiT weights" ++ "\n" ++ "vllm backend unavailable") :=
  transcript_is_ordered_concat cBothFail "Failed to load DiT weights"
    "vllm backend unavailable" false false rfl rfl

/-- Claim C9: whenever startup completes, the front end is configured
with the fixed admission queue capacity 20, before the launch event,
regardless of hardware profile, overrides or initialization outcomes. -/
theorem queue_capacity_fixed (c : Collaborators) (s t : String) (g b : Bool)
    (h1 : c.ditInit (ditArgsOf c) = .ok (s, g))
    (h2 : c.lmInit (lmArgsOf c) = .ok (t, b)) :
    (main c).2 =
      [Event.ditCall (ditArgsOf c), Event.lmCall (lmArgsOf c),
       Event.queue 20, Event.launch "0.0.0.0" 7860] := by
  rw [main_ok c s t g b h1 h2]

/-- Fixture for the C9 witness: an ordinary successful run. -/
def cAllOk : Collaborators :=
  { probeEnv := ⟨.ok true, .ok 8589934592⟩
    env := envNone
    flashAttention := true
    ditInit := fun _ => .ok ("DiT weights loaded", true)
    checkpointDir := "/data/checkpoints"
    ditDtype := "bfloat16"
    lmInit := fun _ => .ok ("LM ready", true) }

/-- Witness for C9 on a successful run. -/
theorem queue_capacity_fixed_witness :
    (main cAllOk).2 =
      [Event.ditCall (ditArgsOf cAllOk), Event.lmCall (lmArgsOf cAllOk),
       Event.queue 20, Event.launch "0.0.0.0" 7860] :=
  queue_capacity_fixed cAllOk "DiT weights loaded" "LM ready" true true rfl rfl

/-- Claim C10: for every collaborator environment, main calls the DiT
initializer with compile_model false and offload_dit_to_cpu false,
while offload_to_cpu is exactly the auto offload flag derived from the
probed memory. -/
theorem dit_call_fixed_flags (c : Collaborators) :
    Event.ditCall (ditArgsOf c) ∈ (main c).2
    ∧ (ditArgsOf c).compile_model = false
    ∧ (ditArgsOf c).offload_dit_to_cpu = false
    ∧ (ditArgsOf c).offload_to_cpu = autoOffload (gpuMemoryOf c) := by
  refine ⟨?_, rfl, rfl, rfl⟩
  unfold main
  rcases hd : c.ditInit (ditArgsOf c) with e | ⟨s, g⟩
  · simp
  · rcases hl : c.lmInit (lmArgsOf c) with e | ⟨t, b⟩
    · simp
    · cases b <;> simp

end App
